import Mathlib

/-!
Verification of the agent leader-socket lock store and the lock CLI
state machines.

The store (`agent/leader_socket.go`) is a Go `map[string]string` guarded
by a mutex; indexing a Go map with a missing key yields the zero value
`""`, so we embed the store as a total function `String → String` where
an unset key maps to the empty string, exactly as the Go map behaves
under `load` and `cas`.  Stateful methods are embedded as explicit
state-passing functions.
-/

namespace Agent

/-- The in-memory lock store: key to state token, `""` when unset
(the Go map zero value, returned by `s.locks[key]` for a missing key). -/
abbrev Locks := String → String

/-- The store the leader starts with: `make(map[string]string)`, every
key unset (reads as `""`). -/
def emptyLocks : Locks := fun _ => ""

/-- Result of `LeaderServer.cas`: the updated map and the returned Bool. -/
structure CasResult where
  replaced : Bool
  locks : Locks

/-- `LeaderServer.load`: `return s.locks[key]` (Go map indexing, `""`
for a missing key).  It returns a string and has no error path. -/
def load (locks : Locks) (key : String) : String := locks key

/-- `LeaderServer.cas`: `if s.locks[key] == old { s.locks[key] = new;
return true }; return false`. -/
def cas (locks : Locks) (key old new : String) : CasResult :=
  if locks key = old then
    { replaced := true, locks := fun k => if k = key then new else locks k }
  else
    { replaced := false, locks := locks }

/-- HTTP method of a request, as switched on by `ServeHTTP`
(`GET`, `PATCH`, or anything else, which hits the `default` branch). -/
inductive Method where
  | get
  | patch
  | other
deriving DecidableEq

/-- A request as `ServeHTTP` observes it: the URL path and the form
values `key`, `old`, `new`.  Go's `r.FormValue` returns `""` for an
absent parameter, so an absent parameter and an empty one are the same
string here, as in the code. -/
structure Request where
  path : String
  method : Method
  key : String
  old : String
  new : String

/-- The responses `ServeHTTP` can write: 200 with a body, 204, 304,
400, 404, 405 (each of the error writers carries its message). -/
inductive Response where
  | ok (body : String)
  | noContent
  | notModified
  | badRequest (msg : String)
  | notFound (msg : String)
  | methodNotAllowed (msg : String)
deriving DecidableEq

/-- Whether a response is the 400 Bad Request outcome. -/
def isBadRequest : Response → Bool
  | Response.badRequest _ => true
  | _ => false

/-- `LeaderServer.ServeHTTP`: 404 off the lock path; GET returns 400 on
empty `key` else 200 with `load key`; PATCH returns 400 on empty `key`
else runs `cas key old new` and answers 204 (replaced) or 304
(unchanged).  Other methods get 405.  The pair carries the response and
the store after the request. -/
def ServeHTTP (locks : Locks) (r : Request) : Response × Locks :=
  if r.path ≠ "/api/leader/v0/lock" then
    (Response.notFound "not found", locks)
  else
    match r.method with
    | Method.get =>
        if r.key = "" then
          (Response.badRequest "key parameter missing", locks)
        else
          (Response.ok (load locks r.key), locks)
    | Method.patch =>
        if r.key = "" then
          (Response.badRequest "key parameter missing", locks)
        else
          let c := cas locks r.key r.old r.new
          if c.replaced then (Response.noContent, c.locks)
          else (Response.notModified, c.locks)
    | Method.other =>
        (Response.methodNotAllowed "unsupported method", locks)

/-- A response as `LeaderClient.CompareAndSwap` receives it: status code
and body. -/
structure HTTPResponse where
  status : Nat
  body : String

/-- The result translation in `LeaderClient.CompareAndSwap`:
204 → `(true, nil)`, 304 → `(false, nil)`, anything else →
`(false, fmt.Errorf("invalid status code %d: %s", code, body))`.
The Go error is embedded as `Option String` (`none` = nil). -/
def CompareAndSwap (resp : HTTPResponse) : Bool × Option String :=
  if resp.status = 204 then (true, none)
  else if resp.status = 304 then (false, none)
  else (false,
    some ("invalid status code " ++ toString resp.status ++ ": " ++ resp.body))

/-- Exit behaviour of one lock CLI invocation: exit 0, or exit 1 with a
diagnostic written to standard error. -/
inductive CmdOutcome where
  | success
  | fatal (msg : String)
deriving DecidableEq

/-- `lockAcquireAction`'s loop (`clicommand`, lock acquire): each
iteration runs `CompareAndSwap(key, "", "1")`; on success it returns,
otherwise it sleeps 100ms and loops, forever.  `env i` is the store the
server holds when attempt `i` arrives (other processes may change it
between attempts).  `fuel` bounds how many attempts we unroll; the
result is the successful attempt's index paired with the number of
sleeps performed before it, or `none` when `fuel` attempts all failed
and the code is still looping. -/
def lockAcquireLoop (env : Nat → Locks) (key : String) :
    Nat → Nat → Nat → Option (Nat × Nat)
  | 0, _, _ => none
  | fuel + 1, i, sleeps =>
    if (cas (env i) key "" "1").replaced then some (i, sleeps)
    else lockAcquireLoop env key fuel (i + 1) (sleeps + 1)

/-- `lockReleaseAction` (`clicommand`, lock release): one
`CompareAndSwap(key, "1", "")`; on `false` it prints the invalid-state
diagnostic and exits 1. -/
def lockReleaseAction (locks : Locks) (key : String) : CmdOutcome × Locks :=
  let c := cas locks key "1" ""
  if c.replaced then (CmdOutcome.success, c.locks)
  else (CmdOutcome.fatal "Lock in invalid state to release - investigate with lock get", c.locks)

/-- Observable outcome of one iteration of `lockDoAction`'s loop
(`clicommand/lock_do.go`): print `do` and exit 0; print `done` and exit
0; CAS lost, loop again; state `"1"`, sleep 100ms and loop again; or the
fatal invalid-state exit. -/
inductive DoStep where
  | outDo
  | outDone
  | retry
  | wait
  | invalid
deriving DecidableEq

/-- One iteration of `lockDoAction`'s loop: `Get(key)`, then switch on
the state: `""` → try `CompareAndSwap(key, "", "1")`, success prints
`do` and returns, failure loops; `"1"` → sleep and loop; `"2"` → print
`done` and return; anything else → fatal. -/
def lockDoStep (locks : Locks) (key : String) : DoStep × Locks :=
  let state := load locks key
  if state = "" then
    let c := cas locks key "" "1"
    if c.replaced then (DoStep.outDo, c.locks) else (DoStep.retry, c.locks)
  else if state = "1" then (DoStep.wait, locks)
  else if state = "2" then (DoStep.outDone, locks)
  else (DoStep.invalid, locks)

/-- `lockDoneAction` as in `clicommand/lock_done.go`: one
`CompareAndSwap(key, "doing", "done")`; on `false` it prints the
invalid-state diagnostic and exits 1. -/
def lockDoneAction (locks : Locks) (key : String) : CmdOutcome × Locks :=
  let c := cas locks key "doing" "done"
  if c.replaced then (CmdOutcome.success, c.locks)
  else (CmdOutcome.fatal "Lock in invalid state to mark complete - investigate with lock get", c.locks)

/-- The other `lockDoneAction` in the repository (the unnamed
`clicommand` file): one `CompareAndSwap(key, "1", "2")`, same exit
behaviour. -/
def lockDoneActionNumeric (locks : Locks) (key : String) : CmdOutcome × Locks :=
  let c := cas locks key "1" "2"
  if c.replaced then (CmdOutcome.success, c.locks)
  else (CmdOutcome.fatal "Lock in invalid state to mark complete - investigate with lock get", c.locks)

/-- A batch of `cas` calls applied in order (each triple is
`(key, old, new)`), starting from a given store. -/
def applyCasOps (locks : Locks) : List (String × String × String) → Locks
  | [] => locks
  | (k, o, n) :: rest => applyCasOps (cas locks k o n).locks rest

/-- Helper: `cas` never touches a key other than the one addressed. -/
theorem cas_locks_ne (locks : Locks) (key old new k : String) (h : k ≠ key) :
    (cas locks key old new).locks k = locks k := by
  unfold cas
  by_cases hc : locks key = old
  · simp [hc, h]
  · simp [hc]

/-- Helper: a batch of `cas` calls that never addresses `key` leaves
`key`'s value unchanged. -/
theorem applyCasOps_ne (ops : List (String × String × String)) (key : String)
    (h : ∀ e ∈ ops, e.1 ≠ key) (locks : Locks) :
    load (applyCasOps locks ops) key = load locks key := by
  induction ops generalizing locks with
  | nil => rfl
  | cons e rest ih =>
    obtain ⟨k, o, n⟩ := e
    have hk : k ≠ key := h (k, o, n) (List.mem_cons_self _ _)
    have hr : ∀ e ∈ rest, e.1 ≠ key := fun e he => h e (List.mem_cons_of_mem _ he)
    unfold applyCasOps
    rw [ih hr]
    exact cas_locks_ne locks k o n key (Ne.symm hk)

/-- Claim C1: for every key, old, new and store state, if the current
token for the key (empty string standing for unset) equals `old`, `cas`
stores `new` under the key and returns `true`; otherwise it returns
`false` and every key of the store is unchanged. -/
theorem cas_semantics (locks : Locks) (key old new : String) :
    (load locks key = old →
      (cas locks key old new).replaced = true ∧
      load (cas locks key old new).locks key = new) ∧
    (load locks key ≠ old →
      (cas locks key old new).replaced = false ∧
      ∀ k, load (cas locks key old new).locks k = load locks k) := by
  constructor
  · intro h
    unfold load cas at *
    simp [h]
  · intro h
    unfold load cas at *
    simp [h]

/-- Witness for C1: both branches of `cas_semantics` at concrete
inputs over the empty store. -/
theorem cas_semantics_witness :
    ((cas emptyLocks "a" "" "1").replaced = true ∧
      load (cas emptyLocks "a" "" "1").locks "a" = "1") ∧
    ((cas emptyLocks "a" "x" "1").replaced = false ∧
      load (cas emptyLocks "a" "x" "1").locks "b" = load emptyLocks "b") :=
  ⟨(cas_semantics emptyLocks "a" "" "1").1 rfl,
   ⟨((cas_semantics emptyLocks "a" "x" "1").2 (by decide)).1,
    ((cas_semantics emptyLocks "a" "x" "1").2 (by decide)).2 "b"⟩⟩

/-- Claim C9: frame property — `cas`, succeed or fail, leaves every key
other than the addressed one unchanged, and a GET request (the `load`
path of `ServeHTTP`) returns the store exactly as it was. -/
theorem cas_get_frame (locks : Locks) (key old new k : String) (r : Request) :
    (k ≠ key → load (cas locks key old new).locks k = load locks k) ∧
    (r.method = Method.get → (ServeHTTP locks r).2 = locks) := by
  constructor
  · intro h
    exact cas_locks_ne locks key old new k h
  · intro h
    unfold ServeHTTP
    by_cases hp : r.path = "/api/leader/v0/lock"
    · by_cases hk : r.key = "" <;> simp [hp, h, hk]
    · simp [hp]

/-- Witness for C9: the frame law at concrete keys and a concrete GET
request. -/
theorem cas_get_frame_witness :
    load (cas emptyLocks "a" "" "1").locks "b" = load emptyLocks "b" ∧
    (ServeHTTP emptyLocks ⟨"/api/leader/v0/lock", Method.get, "a", "", ""⟩).2
      = emptyLocks :=
  ⟨(cas_get_frame emptyLocks "a" "" "1" "b"
      ⟨"/api/leader/v0/lock", Method.get, "a", "", ""⟩).1 (by decide),
   (cas_get_frame emptyLocks "a" "" "1" "b"
      ⟨"/api/leader/v0/lock", Method.get, "a", "", ""⟩).2 rfl⟩

/-- Claim C6: a key never written — no `cas` in the history addressed
it — still reads as the empty string.  `load` returns a plain string
and has no error path in the code. -/
theorem get_unwritten_empty (ops : List (String × String × String)) (key : String)
    (h : ∀ e ∈ ops, e.1 ≠ key) :
    load (applyCasOps emptyLocks ops) key = "" := by
  rw [applyCasOps_ne ops key h emptyLocks]
  rfl

/-- Witness for C6: after a write to key `a`, key `b` still reads empty. -/
theorem get_unwritten_empty_witness :
    load (applyCasOps emptyLocks [("a", "", "1")]) "b" = "" :=
  get_unwritten_empty [("a", "", "1")] "b" (by decide)

/-- Counterexample for C3: a PATCH to the lock endpoint with `key`
present but `old` and `new` absent (`FormValue` yields `""` for both) is
answered 204 No Content on the empty store, not 400 — the server only
checks that `key` is nonempty, so a missing `old` or `new` is not a
malformed request. -/
theorem serve_patch_missing_old_not_bad_request :
    (ServeHTTP emptyLocks ⟨"/api/leader/v0/lock", Method.patch, "k", "", ""⟩).1
      = Response.noContent ∧
    isBadRequest
      (ServeHTTP emptyLocks ⟨"/api/leader/v0/lock", Method.patch, "k", "", ""⟩).1
      = false := by
  constructor <;> rfl

/-- Claim C3 (amended): a PATCH to the lock endpoint is answered 400
exactly when the `key` parameter is missing (empty); otherwise the swap
runs with `old` and `new` as given (absent ones read as `""`) and the
answer is 204 No Content when the stored token matched `old`, 304 Not
Modified when it did not. -/
theorem serve_patch_outcomes (locks : Locks) (r : Request)
    (hp : r.path = "/api/leader/v0/lock") (hm : r.method = Method.patch) :
    (ServeHTTP locks r).1 =
      (if r.key = "" then Response.badRequest "key parameter missing"
       else if load locks r.key = r.old then Response.noContent
       else Response.notModified) := by
  unfold ServeHTTP load
  by_cases hk : r.key = ""
  · simp [hp, hm, hk]
  · by_cases ho : locks r.key = r.old <;> simp [hp, hm, hk, cas, ho]

/-- Witness for C3 (amended): a matching PATCH on the empty store is
answered 204. -/
theorem serve_patch_outcomes_witness :
    (ServeHTTP emptyLocks ⟨"/api/leader/v0/lock", Method.patch, "k", "", "1"⟩).1 =
      (if ("k" : String) = "" then Response.badRequest "key parameter missing"
       else if load emptyLocks "k" = "" then Response.noContent
       else Response.notModified) :=
  serve_patch_outcomes emptyLocks
    ⟨"/api/leader/v0/lock", Method.patch, "k", "", "1"⟩ rfl rfl

/-- Claim C10: a GET or PATCH to the lock endpoint whose `key`
parameter is the empty string (what the server sees for an absent
parameter) is answered 400 and the store comes back exactly unchanged. -/
theorem serve_empty_key_bad_request (locks : Locks) (r : Request)
    (hp : r.path = "/api/leader/v0/lock")
    (hm : r.method = Method.get ∨ r.method = Method.patch)
    (hk : r.key = "") :
    (ServeHTTP locks r).1 = Response.badRequest "key parameter missing" ∧
    (ServeHTTP locks r).2 = locks := by
  unfold ServeHTTP
  rcases hm with hm | hm <;> simp [hp, hm, hk]

/-- Witness for C10: a PATCH with empty key on the empty store is
answered 400 and leaves the store as it was. -/
theorem serve_empty_key_bad_request_witness :
    (ServeHTTP emptyLocks ⟨"/api/leader/v0/lock", Method.patch, "", "a", "b"⟩).1
      = Response.badRequest "key parameter missing" ∧
    (ServeHTTP emptyLocks ⟨"/api/leader/v0/lock", Method.patch, "", "a", "b"⟩).2
      = emptyLocks :=
  serve_empty_key_bad_request emptyLocks
    ⟨"/api/leader/v0/lock", Method.patch, "", "a", "b"⟩ rfl (Or.inr rfl) rfl

/-- Claim C5: the client's `CompareAndSwap` result mapping — a 204
response yields `(true, nil)`, a 304 yields `(false, nil)`, and any
other status yields `(false, err)` where the error message carries the
status code and response body. -/
theorem client_cas_mapping (resp : HTTPResponse) :
    (resp.status = 204 → CompareAndSwap resp = (true, none)) ∧
    (resp.status = 304 → CompareAndSwap resp = (false, none)) ∧
    (resp.status ≠ 204 → resp.status ≠ 304 →
      CompareAndSwap resp = (false,
        some ("invalid status code " ++ toString resp.status ++ ": " ++ resp.body))) := by
  refine ⟨fun h => ?_, fun h => ?_, fun h1 h2 => ?_⟩ <;>
    simp_all [CompareAndSwap]

/-- Witness for C5: the mapping at statuses 204, 304 and 500. -/
theorem client_cas_mapping_witness :
    CompareAndSwap ⟨204, ""⟩ = (true, none) ∧
    CompareAndSwap ⟨304, ""⟩ = (false, none) ∧
    CompareAndSwap ⟨500, "oops"⟩ =
      (false, some ("invalid status code " ++ toString (500 : Nat) ++ ": " ++ "oops")) :=
  ⟨(client_cas_mapping ⟨204, ""⟩).1 rfl,
   (client_cas_mapping ⟨304, ""⟩).2.1 rfl,
   (client_cas_mapping ⟨500, "oops"⟩).2.2 (by decide) (by decide)⟩

/-- Claim C7: `lock release` on a key in the UNLOCKED state (empty
token) exits 1 with the invalid-state diagnostic on standard error —
the `CompareAndSwap(key, "1", "")` fails — and the store is unchanged. -/
theorem release_unlocked_fatal (locks : Locks) (key : String)
    (h : load locks key = "") :
    (lockReleaseAction locks key).1
      = CmdOutcome.fatal "Lock in invalid state to release - investigate with lock get" ∧
    (lockReleaseAction locks key).2 = locks := by
  have h1 : locks key ≠ "1" := by
    intro hc
    rw [show locks key = "" from h] at hc
    exact absurd hc (by decide)
  unfold lockReleaseAction cas
  simp [h1]

/-- Witness for C7: releasing a never-acquired key fails fatally. -/
theorem release_unlocked_fatal_witness :
    (lockReleaseAction emptyLocks "k").1
      = CmdOutcome.fatal "Lock in invalid state to release - investigate with lock get" ∧
    (lockReleaseAction emptyLocks "k").2 = emptyLocks :=
  release_unlocked_fatal emptyLocks "k" rfl

/-- Claim C4: acquire/release round trip from the UNLOCKED state — the
first CAS attempt of `lock acquire` succeeds immediately (zero sleeps),
`lock release` then succeeds and returns the key to the empty UNLOCKED
token, and a further `lock acquire` again succeeds on its first CAS
attempt with zero sleeps. -/
theorem acquire_release_roundtrip (locks : Locks) (key : String)
    (h : load locks key = "") :
    lockAcquireLoop (fun _ => locks) key 1 0 0 = some (0, 0) ∧
    (lockReleaseAction (cas locks key "" "1").locks key).1 = CmdOutcome.success ∧
    load (lockReleaseAction (cas locks key "" "1").locks key).2 key = "" ∧
    lockAcquireLoop (fun _ => (lockReleaseAction (cas locks key "" "1").locks key).2)
      key 1 0 0 = some (0, 0) := by
  have h0 : locks key = "" := h
  refine ⟨?_, ?_, ?_, ?_⟩ <;>
    simp [lockAcquireLoop, lockReleaseAction, cas, load, h0]

/-- Witness for C4: the round trip on the empty store at key `k`. -/
theorem acquire_release_roundtrip_witness :
    lockAcquireLoop (fun _ => emptyLocks) "k" 1 0 0 = some (0, 0) ∧
    (lockReleaseAction (cas emptyLocks "k" "" "1").locks "k").1 = CmdOutcome.success ∧
    load (lockReleaseAction (cas emptyLocks "k" "" "1").locks "k").2 "k" = "" ∧
    lockAcquireLoop (fun _ => (lockReleaseAction (cas emptyLocks "k" "" "1").locks "k").2)
      "k" 1 0 0 = some (0, 0) :=
  acquire_release_roundtrip emptyLocks "k" rfl

/-- Claim C2 (code evaluated at the failing input): on an unset key the
first `lock do` iteration is elected and prints `do`, storing the token
`"1"`; the elected worker's `lock done` (as in `clicommand/lock_done.go`)
then runs `CompareAndSwap(k, "doing", "done")`, which cannot match the
stored `"1"`, so it exits 1 with the invalid-state diagnostic instead of
succeeding.  The repository's other `lockDoneAction`, which swaps
`"1"` for `"2"`, succeeds at the same point. -/
theorem do_once_done_token_mismatch :
    (lockDoStep emptyLocks "k").1 = DoStep.outDo ∧
    load (lockDoStep emptyLocks "k").2 "k" = "1" ∧
    (lockDoneAction (lockDoStep emptyLocks "k").2 "k").1
      = CmdOutcome.fatal "Lock in invalid state to mark complete - investigate with lock get" ∧
    (lockDoneActionNumeric (lockDoStep emptyLocks "k").2 "k").1 = CmdOutcome.success := by
  refine ⟨rfl, rfl, rfl, rfl⟩

/-- Claim C8: structure of the `lock acquire` loop.  If the loop run
against the store states `env 0, env 1, ...` returns at attempt `j`
having slept `t` times (starting from attempt `i` with `s` sleeps
already performed), then the CAS `(key, "", "1")` at attempt `j`
succeeded, every earlier attempt's CAS failed, and exactly one
fixed-interval sleep happened per failed attempt (`t = s + (j - i)`).
If every attempt's CAS fails, the loop is still running after any
number of attempts — there is no retry bound. -/
theorem acquire_loop_structure (env : Nat → Locks) (key : String) :
    (∀ fuel i s j t, lockAcquireLoop env key fuel i s = some (j, t) →
      (cas (env j) key "" "1").replaced = true ∧
      i ≤ j ∧ t = s + (j - i) ∧
      ∀ m, i ≤ m → m < j → (cas (env m) key "" "1").replaced = false) ∧
    ((∀ i, (cas (env i) key "" "1").replaced = false) →
      ∀ fuel i s, lockAcquireLoop env key fuel i s = none) := by
  constructor
  · intro fuel
    induction fuel with
    | zero =>
      intro i s j t h
      simp [lockAcquireLoop] at h
    | succ n ih =>
      intro i s j t h
      simp only [lockAcquireLoop] at h
      by_cases hc : (cas (env i) key "" "1").replaced = true
      · rw [if_pos hc] at h
        obtain ⟨hj, ht⟩ := Option.some.inj h |> Prod.mk.inj
        subst hj; subst ht
        refine ⟨hc, le_refl i, by omega, ?_⟩
        intro m h1 h2
        omega
      · rw [if_neg hc] at h
        obtain ⟨hj, hij, ht, hall⟩ := ih (i + 1) (s + 1) j t h
        refine ⟨hj, by omega, by omega, ?_⟩
        intro m h1 h2
        rcases Nat.eq_or_lt_of_le h1 with h1 | h1
        · rw [← h1]
          simpa using hc
        · exact hall m h1 h2
  · intro hall fuel
    induction fuel with
    | zero =>
      intro i s
      simp [lockAcquireLoop]
    | succ n ih =>
      intro i s
      simp only [lockAcquireLoop, hall i]
      simpa using ih (i + 1) (s + 1)

/-- Witness for C8: a loop whose first attempt succeeds — zero failed
attempts, zero sleeps, success at attempt 0. -/
theorem acquire_loop_structure_witness :
    (cas ((fun _ => emptyLocks) 0) "k" "" "1").replaced = true ∧
    (0 : Nat) ≤ 0 ∧ (0 : Nat) = 0 + (0 - 0) :=
  ⟨((acquire_loop_structure (fun _ => emptyLocks) "k").1 1 0 0 0 0 rfl).1,
   ((acquire_loop_structure (fun _ => emptyLocks) "k").1 1 0 0 0 0 rfl).2.1,
   ((acquire_loop_structure (fun _ => emptyLocks) "k").1 1 0 0 0 0 rfl).2.2.1⟩

end Agent
